import Mathlib

/-!
Shallow embedding of the dependency-core pieces of the nanox runtime that the
specification talks about:

* `DependableObject` — from `src/core/dependableobject.hpp`.  Pointers to
  other dependable objects are modelled as natural-number ids; the
  `DependableObjectVector` container (a `std::set` of pointers) is modelled as
  a `Finset Nat` of ids.  The external-pointer plumbing fields
  (`_domain`, `_outputObjects`, `_readObjects`, `_schedulerData`) are omitted:
  no claim touches them.
* Calls into external collaborators (the scheduler hook `atSuccessor`, the
  release `dependenciesSatisfied`, the work-descriptor hook
  `predecessorFinished`, lock acquisition, the memory allocator) are modelled
  as an emitted event trace, so that theorems can talk about which calls a
  function makes and with which arguments.
* The task-graph dump structures `Edge` / `Node::connect_nodes` — from
  `src/plugins/instrumentation/tg_dump_utils.hpp`.
* `RequestQueue` / `RequestMap` — from `src/arch/cluster/requestqueue.hpp`.
* `nanos_cmalloc` — from `src/apis/c/nanos_memory.cpp`.
-/

/-- Observable calls a core operation makes into its collaborators. -/
inductive Event where
  | atSuccessor (target : Nat) (source : Option Nat) (newEdge : Nat) (numPred : Int)
  | dependenciesSatisfied (target : Nat)
  | predecessorFinished (wd predWd : Nat)
  | acquireLock (obj : Nat)
  | releaseLock (obj : Nat)
  | deleteSuccessorCall (obj removed : Nat)
  | allocate (size : Nat)
  | allocateNone (size : Nat)
  | registerNodeOwnedMemory (node ptr size : Nat)
  deriving DecidableEq, Repr

/-- Whether an event is an invocation of `dependenciesSatisfied`. -/
def Event.isDependenciesSatisfied : Event → Bool
  | .dependenciesSatisfied _ => true
  | _ => false

/-- Whether an event is an invocation of the `predecessorFinished` hook. -/
def Event.isPredecessorFinished : Event → Bool
  | .predecessorFinished _ _ => true
  | _ => false

/-- Project the object id out of a lock-acquisition event. -/
def Event.acquiredLock : Event → Option Nat
  | .acquireLock i => some i
  | _ => none

/-- State of a `DependableObject` (fields of the C++ class, with pointers
replaced by ids and the `DependableObjectVector` sets by `Finset Nat`). -/
structure DependableObject where
  _id : Nat
  _numPredecessors : Int
  _references : Int
  _predecessors : Finset Nat
  _successors : Finset Nat
  _submitted : Bool
  _needsSubmission : Bool
  _wd : Option Nat
  deriving DecidableEq

/-- `DependableObject::increasePredecessors`: post-increment, returns the old
value. -/
def DependableObject.increasePredecessors (self : DependableObject) :
    DependableObject × Int :=
  ({ self with _numPredecessors := self._numPredecessors + 1 }, self._numPredecessors)

/-- `DependableObject::decreasePredecessors` (dependableobject.hpp:99-116).
Decrements `_numPredecessors`, calls the scheduler hook
`atSuccessor(*this, finishedPred, 1, numPred)`, and — since the
`SyncLockBlock`/`decreasePredecessorsInLock` block is commented out in the
source — then calls `dependenciesSatisfied()` iff the decremented count is 0
and `batchRelease` is false.  Returns the new object state, the emitted call
trace and the returned `numPred`.  `flushDeps` and `blocking` are unused by
the source body. -/
def DependableObject.decreasePredecessors (self : DependableObject)
    (flushDeps : Option (List Nat)) (finishedPred : Option DependableObject)
    (batchRelease : Bool) (blocking : Bool) :
    DependableObject × List Event × Int :=
  let numPred : Int := self._numPredecessors - 1
  let depObj := { self with _numPredecessors := numPred }
  let hook := Event.atSuccessor depObj._id (finishedPred.map (fun p => p._id)) 1 numPred
  let rel : List Event :=
    if numPred == 0 && !batchRelease then [Event.dependenciesSatisfied depObj._id] else []
  (depObj, hook :: rel, numPred)

/-- `DependableObject::decreasePredecessorsInLock` (dependableobject.hpp:118-137).
If `finishedPred` is non-null: when both this object and the predecessor carry
work descriptors, invoke `getWD()->predecessorFinished(finishedPred->getWD())`;
then, if the predecessor set is non-empty, erase `finishedPred` from it.
Finally, if `numPred == 0` and the set is still non-empty, clear it. -/
def DependableObject.decreasePredecessorsInLock (self : DependableObject)
    (finishedPred : Option DependableObject) (numPred : Int) :
    DependableObject × List Event :=
  let evs : List Event :=
    match finishedPred, self._wd with
    | some p, some w =>
        match p._wd with
        | some pw => [Event.predecessorFinished w pw]
        | none => []
    | _, _ => []
  let preds1 : Finset Nat :=
    match finishedPred with
    | some p =>
        if self._predecessors.card != 0 then self._predecessors.erase p._id
        else self._predecessors
    | none => self._predecessors
  let preds2 : Finset Nat := if numPred == 0 && preds1.card != 0 then ∅ else preds1
  ({ self with _predecessors := preds2 }, evs)

/-- `DependableObject::addPredecessor`: insert into `_predecessors` under the
object's own lock; returns whether the insertion took place. -/
def DependableObject.addPredecessor (self : DependableObject)
    (depObj : DependableObject) : DependableObject × Bool :=
  ({ self with _predecessors := insert depObj._id self._predecessors },
   decide (depObj._id ∉ self._predecessors))

/-- `DependableObject::addSuccessor` (dependableobject.hpp:165-171).
Calls the scheduler hook `atSuccessor(depObj, this, 0, 0)` and then inserts
`depObj` into the `_successors` set; the returned `Bool` is the `.second` of
the `std::set` insertion (true iff the element was not already present). -/
def DependableObject.addSuccessor (self : DependableObject)
    (depObj : DependableObject) : DependableObject × Bool × List Event :=
  ({ self with _successors := insert depObj._id self._successors },
   decide (depObj._id ∉ self._successors),
   [Event.atSuccessor depObj._id (some self._id) 0 0])

/-- `DependableObject::deleteSuccessor`: erase from `_successors`; returns
whether an element was removed. -/
def DependableObject.deleteSuccessor (self : DependableObject) (depObj : Nat) :
    DependableObject × Bool :=
  ({ self with _successors := self._successors.erase depObj },
   decide (depObj ∈ self._successors))

/-- `DependableObject::enableSubmission`. -/
def DependableObject.enableSubmission (self : DependableObject) : DependableObject :=
  { self with _needsSubmission := true }

/-- `DependableObject::submitted()` (dependableobject.hpp:229-234): sets
`_submitted = true`, then `enableSubmission()` (the `memoryFence` has no
sequential content). -/
def DependableObject.submitted (self : DependableObject) : DependableObject :=
  ({ self with _submitted := true }).enableSubmission

/-- `DependableObject::disableSubmission` (dependableobject.hpp:246-251): sets
`_needsSubmission = false` and `_submitted = false`. -/
def DependableObject.disableSubmission (self : DependableObject) : DependableObject :=
  { self with _needsSubmission := false, _submitted := false }

/-- `DependableObject::isSubmitted`. -/
def DependableObject.isSubmitted (self : DependableObject) : Bool :=
  self._submitted

/-- `DependableObject::~DependableObject` (dependableobject.hpp:35-46), acting
on a world of objects indexed by id.  Under a single `SyncLockBlock` on the
dying object's *own* lock, it iterates over `_predecessors` (a `std::set`,
modelled by iterating the `Finset` in ascending id order) calling
`(*it)->deleteSuccessor(*this)` on each.  The trailing `std::for_each` deleter
calls on `_outputObjects`/`_readObjects` only free memory and are not
modelled.  No assertion about `_successors` appears in the source. -/
def DependableObject.destructor (w : Nat → DependableObject) (x : Nat) :
    (Nat → DependableObject) × List Event :=
  let d := w x
  let ps := d._predecessors.sort (· ≤ ·)
  let w' := ps.foldl
    (fun acc p => fun i => if i = p then ((acc p).deleteSuccessor x).1 else acc i) w
  (w', Event.acquireLock x ::
        (ps.map (fun p => Event.deleteSuccessorCall p x) ++ [Event.releaseLock x]))

/-! Task-graph dump plugin (`tg_dump_utils.hpp`). -/

/-- `DependencyType` enum (tg_dump_utils.hpp:34-45). -/
inductive DependencyType where
  | Null
  | True
  | Anti
  | Output
  | InConcurrent
  | OutConcurrent
  | InCommutative
  | OutCommutative
  | InAny
  | OutAny
  deriving DecidableEq, Repr

/-- `EdgeKind` enum (tg_dump_utils.hpp:47-51). -/
inductive EdgeKind where
  | Nesting
  | Synchronization
  | Dependency
  deriving DecidableEq, Repr

/-- `Edge` struct (tg_dump_utils.hpp:53-123); node pointers become node ids,
the `_data_range` pointer pair becomes a pair of addresses.  `operator==`
(lines 125-131) compares all five fields, which is the derived equality. -/
structure Edge where
  _kind : EdgeKind
  _dep_type : DependencyType
  _source : Nat
  _target : Nat
  _data_range : Nat × Nat
  deriving DecidableEq, Repr

/-- The per-node `_exit_edges` / `_entry_edges` vectors of all `Node` objects,
indexed by node id. -/
structure TaskGraph where
  exit_edges : Nat → List Edge
  entry_edges : Nat → List Edge

/-- `Node::get_connections` (tg_dump_utils.hpp:216-224): the exit edges of
`source` whose target is `target`. -/
def Node.get_connections (g : TaskGraph) (source target : Nat) : List Edge :=
  (g.exit_edges source).filter (fun e => decide (e._target = target))

/-- `Node::connect_nodes` (tg_dump_utils.hpp:253-300).  Builds the new edge;
if an equal edge (same kind, dependency type, endpoints and data range)
already connects `source` to `target`, returns with the graph unchanged;
otherwise appends the edge to `source`'s exit edges and `target`'s entry
edges.  (The `used_edge_types` bookkeeping array is global statistics and is
not modelled.) -/
def Node.connect_nodes (g : TaskGraph) (source target : Nat) (kind : EdgeKind)
    (data_start data_end : Nat) (dep_type : DependencyType) : TaskGraph :=
  let new_edge : Edge :=
    { _kind := kind, _dep_type := dep_type, _source := source, _target := target,
      _data_range := (data_start, data_end) }
  if new_edge ∈ Node.get_connections g source target then g
  else
    { exit_edges := fun i =>
        if i = source then g.exit_edges source ++ [new_edge] else g.exit_edges i,
      entry_edges := fun i =>
        if i = target then g.entry_edges target ++ [new_edge] else g.entry_edges i }

/-! Cluster request queue (`requestqueue.hpp`).  Queue elements (`T *`) are
modelled as natural numbers; the `std::list` is a Lean list with the front at
the head. -/

/-- `RequestQueue::add` (requestqueue.hpp:15-20): append at the back under the
lock. -/
def RequestQueue.add (q : List Nat) (elem : Nat) : List Nat :=
  q ++ [elem]

/-- `RequestQueue::fetch` (requestqueue.hpp:22-36).  The body initialises a
local `elem = NULL`, acquires and releases the lock around an entirely
commented-out scan, and falls off the end of the function without a `return`
statement.  The first component models the returned value: `none` records
that no defined value is returned (control flows off the end of a non-void
function); a defined return of pointer `p` would be `some (some p)` and a
defined `NULL` return `some none`.  The queue is left untouched. -/
def RequestQueue.fetch (q : List Nat) : Option (Option Nat) × List Nat :=
  (none, q)

/-- `RequestQueue::tryFetch` (requestqueue.hpp:38-49).  `lockAcquired` is the
result of `_lock.tryAcquire()`: on failure the queue is untouched and `NULL`
is returned; on success, if the queue is non-empty the front element is popped
and returned, otherwise `NULL` is returned. -/
def RequestQueue.tryFetch (lockAcquired : Bool) (q : List Nat) :
    Option Nat × List Nat :=
  if lockAcquired then
    match q with
    | [] => (none, [])
    | x :: xs => (some x, xs)
  else (none, q)

/-- `std::map::insert` with a correct hint, on a key-sorted association list:
inserts `(key, elem)` at its sorted position if and only if `key` is absent. -/
def mapInsert : List (Nat × Nat) → Nat → Nat → List (Nat × Nat)
  | [], key, elem => [(key, elem)]
  | kv :: rest, key, elem =>
      if key < kv.1 then (key, elem) :: kv :: rest
      else if key = kv.1 then kv :: rest
      else kv :: mapInsert rest key elem

/-- `RequestMap::add` (requestqueue.hpp:58-68), on the key-sorted association
list modelling the `std::map`.  `lower_bound` is the first entry whose key is
`≥ key`.  The source condition is `it != _map.end() || key_comp(key, it->first)`:
when `lower_bound` finds an entry (`it != end`) the condition short-circuits
to true and `_map.insert(it, ...)` runs — a no-op when the key is already
present; when `it == end` the second disjunct dereferences the end iterator,
which is undefined behaviour, modelled as `none`.  The `Bool` component
records whether the "Error, key already exists." branch was reached (it never
is in defined behaviour). -/
def RequestMap.add (m : List (Nat × Nat)) (key elem : Nat) :
    Option (List (Nat × Nat) × Bool) :=
  match m.find? (fun kv => decide (key ≤ kv.1)) with
  | some _ => some (mapInsert m key elem, false)
  | none => none

/-! C memory API (`nanos_memory.cpp`). -/

/-- `nanos_err_t` result codes; error codes other than the two the claims
mention are folded into `NANOS_ERR`. -/
inductive nanos_err_t where
  | NANOS_OK
  | NANOS_INVALID_PARAM
  | NANOS_ERR (code : Nat)
  deriving DecidableEq, Repr

/-- `nanos_cmalloc` (nanos_memory.cpp:73-95).  `numNodes` is
`sys.getNetwork()->getNumNodes()`; the two allocator calls are passed in as
functions returning either a pointer or a thrown `nanos_err_t`.  If
`node < numNodes`: allocate with `allocate` when `node == 0`, else with
`allocate_none`; on success register the memory with the system and return
`NANOS_OK` and the pointer; a thrown error is caught and returned.  Otherwise
return `NANOS_INVALID_PARAM` without attempting anything.  The trace records
the allocation attempt and the registration. -/
def nanos_cmalloc (numNodes : Nat) (size : Nat) (node : Nat)
    (allocate allocate_none : Nat → Except nanos_err_t Nat) :
    nanos_err_t × Option Nat × List Event :=
  if node < numNodes then
    let attempt := if node = 0 then Event.allocate size else Event.allocateNone size
    match (if node = 0 then allocate size else allocate_none size) with
    | .ok p =>
        (nanos_err_t.NANOS_OK, some p, [attempt, Event.registerNodeOwnedMemory node p size])
    | .error e => (e, none, [attempt])
  else (nanos_err_t.NANOS_INVALID_PARAM, none, [])

/-! Concrete fixtures used by counterexamples and witnesses. -/

/-- A finished predecessor object: id 1, carrying work descriptor 11. -/
def doPred : DependableObject :=
  { _id := 1, _numPredecessors := 0, _references := 1, _predecessors := ∅,
    _successors := {2}, _submitted := true, _needsSubmission := true, _wd := some 11 }

/-- A successor object with five outstanding predecessors: id 2, work
descriptor 22, not yet submitted. -/
def doSucc : DependableObject :=
  { _id := 2, _numPredecessors := 5, _references := 1, _predecessors := {1},
    _successors := ∅, _submitted := false, _needsSubmission := false, _wd := some 22 }

/-- An unsubmitted object whose last predecessor is about to finish: id 3,
one outstanding predecessor, `_submitted = false`. -/
def doLast : DependableObject :=
  { _id := 3, _numPredecessors := 1, _references := 1, _predecessors := {1},
    _successors := ∅, _submitted := false, _needsSubmission := false, _wd := some 33 }

/-- A world of dependable objects for exercising the destructor: object 0 has
predecessor 1 and a (non-empty) successor set `{2}`; object 1 lists 0 among
its successors. -/
def destructorWorld : Nat → DependableObject
  | 0 => { _id := 0, _numPredecessors := 1, _references := 1, _predecessors := {1},
           _successors := {2}, _submitted := true, _needsSubmission := true, _wd := some 10 }
  | 1 => { _id := 1, _numPredecessors := 0, _references := 1, _predecessors := ∅,
           _successors := {0, 2}, _submitted := true, _needsSubmission := true, _wd := some 11 }
  | n => { _id := n, _numPredecessors := 0, _references := 1, _predecessors := ∅,
           _successors := ∅, _submitted := false, _needsSubmission := false, _wd := none }



/-! Claims about `DependableObject`. -/

/-- Claim C1, counterexample: on an object whose `_submitted` flag is false,
a `decreasePredecessors` call that brings the predecessor count to 0 with
`batchRelease = false` still invokes `dependenciesSatisfied()`; the source
condition (dependableobject.hpp:111) tests only the count and the batch flag,
not `_submitted`. -/
theorem decreasePredecessors_releases_unsubmitted_cx :
    doLast._submitted = false
  ∧ ((doLast.decreasePredecessors none none false false).2.1.any
        Event.isDependenciesSatisfied) = true := by decide

/-- Claim C1 (amended): `decreasePredecessors` invokes
`dependenciesSatisfied()` iff the decremented count is 0 and `batchRelease`
is false; the `_submitted` flag is not consulted — the emitted call trace is
identical whether the object is submitted or not. -/
theorem decreasePredecessors_release_condition (self : DependableObject)
    (flushDeps : Option (List Nat)) (finishedPred : Option DependableObject)
    (batchRelease blocking : Bool) :
    ((self.decreasePredecessors flushDeps finishedPred batchRelease blocking).2.1.any
        Event.isDependenciesSatisfied)
      = ((self._numPredecessors - 1 == 0) && !batchRelease)
  ∧ (({ self with _submitted := true
        }).decreasePredecessors flushDeps finishedPred batchRelease blocking).2.1
      = (({ self with _submitted := false
        }).decreasePredecessors flushDeps finishedPred batchRelease blocking).2.1 := by
  constructor
  · simp only [DependableObject.decreasePredecessors]
    by_cases h : ((self._numPredecessors - 1 == 0) && !batchRelease) = true
    · simp [h, Event.isDependenciesSatisfied]
    · simp only [Bool.not_eq_true] at h
      simp [h, Event.isDependenciesSatisfied]
  · rfl

/-- Claim C2, counterexample: after `submitted()` has latched the flag to
true, `disableSubmission()` (dependableobject.hpp:246-251) sets it back to
false, so the flag is not a one-way latch. -/
theorem submitted_flag_reset_cx :
    (doLast.submitted)._submitted = true
  ∧ ((doLast.submitted).disableSubmission)._submitted = false := by decide

/-- Claim C2 (amended): `submitted()` sets the `_submitted` flag to true, but
`disableSubmission()` resets it to false on any object, so the transition is
reversible rather than happening exactly once. -/
theorem submitted_set_disableSubmission_reset (self : DependableObject) :
    (self.submitted)._submitted = true
  ∧ (self.disableSubmission)._submitted = false :=
  ⟨rfl, rfl⟩

/-- Claim C3, counterexample: creating the edge `doPred → doSucc` via
`addSuccessor` invokes the scheduler hook with `new_edge = 0` (false) and a
remaining-predecessor argument of `0`, not `new_edge = true` with the
target's remaining count (5); conversely the hook call made from
`decreasePredecessors` carries `new_edge = 1` (an edge-creation flag) and the
decremented count. -/
theorem atSuccessor_hook_args_cx :
    ((doPred.addSuccessor doSucc).2.2 = [Event.atSuccessor 2 (some 1) 0 0])
  ∧ (Event.atSuccessor 2 (some 1) 1 5 ∉ (doPred.addSuccessor doSucc).2.2)
  ∧ ((doSucc.decreasePredecessors none (some doPred) false false).2.1.head?
       = some (Event.atSuccessor 2 (some 1) 1 4)) := by decide

/-- Claim C3 (amended): `addSuccessor` invokes `atSuccessor(target, source)`
with the new-edge flag `0` and remaining-predecessor argument `0`, while the
`atSuccessor` call made from `decreasePredecessors` passes the new-edge flag
`1` together with the decremented predecessor count — the opposite of an
edge-creation notification split. -/
theorem atSuccessor_hook_arguments (s t self : DependableObject)
    (flushDeps : Option (List Nat)) (finishedPred : Option DependableObject)
    (batchRelease blocking : Bool) :
    (s.addSuccessor t).2.2 = [Event.atSuccessor t._id (some s._id) 0 0]
  ∧ (self.decreasePredecessors flushDeps finishedPred batchRelease blocking).2.1.head?
      = some (Event.atSuccessor self._id (finishedPred.map (fun p => p._id)) 1
          (self._numPredecessors - 1)) :=
  ⟨rfl, rfl⟩

/-- Claim C4, counterexample: with `doSucc` holding predecessor 1 and both
objects carrying work descriptors, `decreasePredecessors(doSucc, finishedPred
= doPred)` leaves `doSucc._predecessors` unchanged (still containing 1) and
emits no `predecessorFinished` call: the lock-protected removal block in
`decreasePredecessors` is commented out in the source
(dependableobject.hpp:105-110). -/
theorem decreasePredecessors_no_removal_cx :
    (1 ∈ doSucc._predecessors)
  ∧ doSucc._wd = some 22 ∧ doPred._wd = some 11
  ∧ ((doSucc.decreasePredecessors none (some doPred) false false).1._predecessors
       = doSucc._predecessors)
  ∧ ((doSucc.decreasePredecessors none (some doPred) false false).2.1.any
        Event.isPredecessorFinished = false) := by decide

/-- Claim C4 (amended): `decreasePredecessors` leaves the predecessors set
untouched and never invokes the `predecessorFinished` hook; the removal and
notification logic exists only in `decreasePredecessorsInLock`, which
`decreasePredecessors` does not call — when invoked directly with a non-null
finished predecessor, that function fires the hook exactly when both objects
carry work descriptors and removes the predecessor from the set. -/
theorem decreasePredecessors_leaves_predecessors (self p : DependableObject)
    (flushDeps : Option (List Nat)) (finishedPred : Option DependableObject)
    (batchRelease blocking : Bool) (numPred : Int) :
    ((self.decreasePredecessors flushDeps finishedPred batchRelease blocking).1._predecessors
       = self._predecessors)
  ∧ ((self.decreasePredecessors flushDeps finishedPred batchRelease blocking).2.1.any
        Event.isPredecessorFinished = false)
  ∧ ((self.decreasePredecessorsInLock (some p) numPred).2.any
        Event.isPredecessorFinished = (self._wd.isSome && p._wd.isSome))
  ∧ (p._id ∉ (self.decreasePredecessorsInLock (some p) numPred).1._predecessors) := by
  refine ⟨rfl, ?_, ?_, ?_⟩
  · simp only [DependableObject.decreasePredecessors]
    by_cases h : ((self._numPredecessors - 1 == 0) && !batchRelease) = true
    · simp [h, Event.isPredecessorFinished]
    · simp only [Bool.not_eq_true] at h
      simp [h, Event.isPredecessorFinished]
  · simp only [DependableObject.decreasePredecessorsInLock]
    cases hw : self._wd with
    | none => simp [hw]
    | some w =>
        cases hp : p._wd with
        | none => simp [hw, hp]
        | some pw => simp [hw, hp, Event.isPredecessorFinished]
  · simp only [DependableObject.decreasePredecessorsInLock]
    by_cases hc : (self._predecessors.card != 0) = true
    · by_cases h2 : (numPred == 0 &&
          ((self._predecessors.erase p._id).card != 0)) = true
      · simp [hc, h2]
      · simp only [Bool.not_eq_true] at h2
        simp [hc, h2, Finset.not_mem_erase]
    · simp only [Bool.not_eq_true] at hc
      have h0 : self._predecessors.card = 0 := by simpa using hc
      have hempty : self._predecessors = ∅ := Finset.card_eq_zero.mp h0
      simp [hc, hempty]

/-- Helper for claim C5: re-running `Node::connect_nodes` with identical
arguments is a no-op, because the equal edge inserted by the first call is
found by the duplicate scan of the second. -/
theorem connect_nodes_idem (g : TaskGraph) (s t : Nat) (k : EdgeKind)
    (ds de : Nat) (dt : DependencyType) :
    Node.connect_nodes (Node.connect_nodes g s t k ds de dt) s t k ds de dt
      = Node.connect_nodes g s t k ds de dt := by
  by_cases h : ({ _kind := k, _dep_type := dt, _source := s, _target := t, _data_range := (ds, de) } : Edge) ∈ Node.get_connections g s t
  · have h1 : Node.connect_nodes g s t k ds de dt = g := by
      simp only [Node.connect_nodes]
      exact if_pos h
    rw [h1]
    exact h1
  · have h1 : Node.connect_nodes g s t k ds de dt =
        { exit_edges := fun i => if i = s then g.exit_edges s ++ [{ _kind := k, _dep_type := dt, _source := s, _target := t, _data_range := (ds, de) }] else g.exit_edges i,
          entry_edges := fun i => if i = t then g.entry_edges t ++ [{ _kind := k, _dep_type := dt, _source := s, _target := t, _data_range := (ds, de) }] else g.entry_edges i } := by
      simp only [Node.connect_nodes]
      exact if_neg h
    have hmem : ({ _kind := k, _dep_type := dt, _source := s, _target := t, _data_range := (ds, de) } : Edge) ∈ Node.get_connections (Node.connect_nodes g s t k ds de dt) s t := by
      rw [h1]
      simp [Node.get_connections, List.mem_filter]
    conv_lhs => rw [Node.connect_nodes]
    exact if_pos hmem

/-- Claim C5: edge insertion is idempotent.  For `DependableObject`, a second
`addSuccessor` with the same target leaves the successor set exactly as after
the first insertion; for the task-graph dump, a second `connect_nodes` with an
edge equal in kind, dependency type, endpoints and data range is a no-op on
the whole graph. -/
theorem edge_insertion_idempotent :
    (∀ s t : DependableObject,
       (((s.addSuccessor t).1).addSuccessor t).1._successors
         = ((s.addSuccessor t).1)._successors)
  ∧ (∀ (g : TaskGraph) (src tgt : Nat) (k : EdgeKind) (ds de : Nat)
        (dt : DependencyType),
       Node.connect_nodes (Node.connect_nodes g src tgt k ds de dt) src tgt k ds de dt
         = Node.connect_nodes g src tgt k ds de dt) :=
  ⟨fun s t => by simp [DependableObject.addSuccessor, Finset.insert_idem],
   fun g src tgt k ds de dt => connect_nodes_idem g src tgt k ds de dt⟩

/-- Helper for claim C6: the destructor's fold over the sorted predecessor
list updates each predecessor's entry exactly once and leaves every other
entry of the world untouched. -/
theorem destructor_foldl_eq (x : Nat) :
    ∀ (l : List Nat), l.Nodup → ∀ (w : Nat → DependableObject) (i : Nat),
      (l.foldl (fun acc p => fun j =>
          if j = p then ((acc p).deleteSuccessor x).1 else acc j) w) i
        = if i ∈ l then ((w i).deleteSuccessor x).1 else w i := by
  intro l
  induction l with
  | nil => intro _ w i; simp
  | cons a l ih =>
      intro hnd w i
      rw [List.foldl_cons, ih (List.Nodup.of_cons hnd)]
      by_cases hi : i ∈ l
      · have hia : i ≠ a := by
          intro hEq
          exact (List.nodup_cons.mp hnd).1 (hEq ▸ hi)
        simp [hi, hia]
      · by_cases hia : i = a
        · subst hia
          simp [hi]
        · simp [hi, hia]

/-- Claim C6, counterexample: destroying object 0 (predecessor set `{1}`,
successor set `{2}` — non-empty) acquires only object 0's *own* lock around
the whole removal loop; predecessor 1's successor entry for 0 is erased, yet
`acquireLock 1` never appears in the call trace, and the destructor completes
normally although the dying object's successor set is non-empty (the source
has no assertion). -/
theorem destructor_lock_cx :
    (1 ∈ (destructorWorld 0)._predecessors)
  ∧ ((DependableObject.destructor destructorWorld 0).2
       = [Event.acquireLock 0, Event.deleteSuccessorCall 1 0, Event.releaseLock 0])
  ∧ (Event.acquireLock 1 ∉ (DependableObject.destructor destructorWorld 0).2)
  ∧ (((DependableObject.destructor destructorWorld 0).1 1)._successors = {2})
  ∧ ((destructorWorld 0)._successors ≠ ∅) := by
  have hp : (destructorWorld 0)._predecessors = {1} := rfl
  have hs : Finset.sort (· ≤ ·) (destructorWorld 0)._predecessors = [1] := by
    rw [hp]
    exact Finset.sort_singleton _ 1
  refine ⟨by decide, ?_, ?_, ?_, by decide⟩
  · simp [DependableObject.destructor, hs]
  · simp [DependableObject.destructor, hs]
  · simp only [DependableObject.destructor, hs, List.foldl_cons, List.foldl_nil]
    decide

/-- Claim C6 (amended): at destruction a `DependableObject` removes itself
from the successor set of every object in its predecessors set, but the only
lock acquired is the dying object's own `object_lock` (one `SyncLockBlock`
around the whole loop); entries outside the predecessor set are untouched,
and no assertion about the object's own successor set is made — the
destructor completes regardless of whether that set is empty. -/
theorem destructor_behavior (w : Nat → DependableObject) (x : Nat) :
    ((DependableObject.destructor w x).2.filterMap Event.acquiredLock = [x])
  ∧ (∀ p, p ∈ (w x)._predecessors →
        (DependableObject.destructor w x).1 p = ((w p).deleteSuccessor x).1)
  ∧ (∀ i, i ∉ (w x)._predecessors → (DependableObject.destructor w x).1 i = w i) := by
  refine ⟨?_, ?_, ?_⟩
  · simp only [DependableObject.destructor, List.filterMap_cons, List.filterMap_append,
      List.filterMap_map, Event.acquiredLock]
    have hnil : ∀ l : List Nat,
        (l.filterMap (Event.acquiredLock ∘ fun p => Event.deleteSuccessorCall p x)) = [] := by
      intro l
      induction l with
      | nil => rfl
      | cons a l ih => simp [List.filterMap_cons, Event.acquiredLock, ih]
    simp [hnil, Event.acquiredLock]
  · intro p hp
    simp only [DependableObject.destructor]
    rw [destructor_foldl_eq x _ (Finset.sort_nodup _ _)]
    simp [Finset.mem_sort, hp]
  · intro i hi
    simp only [DependableObject.destructor]
    rw [destructor_foldl_eq x _ (Finset.sort_nodup _ _)]
    simp [Finset.mem_sort, hi]

/-- Claim C6, witness: instantiating `destructor_behavior` at the concrete
world — the destructor of object 0 acquires exactly lock 0, and predecessor
1's entry is the result of `deleteSuccessor 0`. -/
theorem destructor_behavior_witness :
    ((DependableObject.destructor destructorWorld 0).2.filterMap Event.acquiredLock = [0])
  ∧ (DependableObject.destructor destructorWorld 0).1 1
      = ((destructorWorld 1).deleteSuccessor 0).1 :=
  ⟨(destructor_behavior destructorWorld 0).1,
   (destructor_behavior destructorWorld 0).2.1 1 (by decide)⟩

/-! Claims about the cluster request queue and the C memory API. -/

/-- Claim C7: evaluation of `RequestMap::add` at the failing inputs.  With the
map `{5 ↦ 10}`, adding key 5 again takes the *insert* branch (the condition
`it != end || key_comp(key, it->first)` short-circuits to true), the
`std::map` insert silently drops the duplicate and no error is reported —
the reported-error flag is `false` although the key was present.  Adding a
key greater than every existing key (here: to the empty map) makes
`lower_bound` return `end` and the condition dereferences the end iterator:
undefined behaviour (`none`), instead of the insert the claim requires. -/
theorem requestMap_add_eval :
    RequestMap.add [(5, 10)] 5 99 = some ([(5, 10)], false)
  ∧ RequestMap.add [] 7 1 = none
  ∧ RequestMap.add [(5, 10)] 3 1 = some ([(3, 1), (5, 10)], false) := by decide

/-- Claim C8: evaluation of `RequestQueue::fetch` on the empty queue.  The
function returns no defined value at all (control falls off the end of the
non-void function); in particular the result is not the defined `NULL`
sentinel `some none` the claim requires. -/
theorem requestQueue_fetch_empty_eval :
    RequestQueue.fetch ([] : List Nat) = (none, [])
  ∧ (RequestQueue.fetch ([] : List Nat)).1 ≠ some none := by decide

/-- Helper for claim C9: building a queue by successive `add` calls appends
the elements in submission order. -/
theorem requestQueue_foldl_add (l : List Nat) :
    ∀ init : List Nat, List.foldl RequestQueue.add init l = init ++ l := by
  induction l with
  | nil => intro init; simp
  | cons a l ih =>
      intro init
      rw [List.foldl_cons]
      rw [ih]
      simp [RequestQueue.add]

/-- Claim C9: `RequestQueue::tryFetch` FIFO behaviour.  When the lock cannot
be acquired the queue is untouched and `NULL` is returned; on an empty queue
`NULL` is returned; otherwise the element least recently appended by `add`
is removed and returned, leaving the remaining elements in their original
order. -/
theorem requestQueue_tryFetch_fifo (e : Nat) (es q : List Nat) :
    RequestQueue.tryFetch false q = (none, q)
  ∧ RequestQueue.tryFetch true ([] : List Nat) = (none, [])
  ∧ RequestQueue.tryFetch true (List.foldl RequestQueue.add [] (e :: es)) = (some e, es) := by
  refine ⟨rfl, rfl, ?_⟩
  rw [requestQueue_foldl_add]
  rfl

/-- Claim C10: `nanos_cmalloc` validates the node argument at the interface.
A node index `≥` the number of network nodes yields `NANOS_INVALID_PARAM`
with no allocation attempt and no registration; a valid node allocates with
`allocate` for node 0 and with `allocate_none` otherwise, registering the
memory and returning `NANOS_OK` on success, and returning the caught error
code (with no registration) on allocation failure. -/
theorem nanos_cmalloc_validates_node (numNodes size node : Nat)
    (allocate allocate_none : Nat → Except nanos_err_t Nat) :
    (numNodes ≤ node →
       nanos_cmalloc numNodes size node allocate allocate_none
         = (nanos_err_t.NANOS_INVALID_PARAM, none, []))
  ∧ (∀ p, node < numNodes → node = 0 → allocate size = .ok p →
       nanos_cmalloc numNodes size node allocate allocate_none
         = (nanos_err_t.NANOS_OK, some p,
            [Event.allocate size, Event.registerNodeOwnedMemory node p size]))
  ∧ (∀ p, node < numNodes → node ≠ 0 → allocate_none size = .ok p →
       nanos_cmalloc numNodes size node allocate allocate_none
         = (nanos_err_t.NANOS_OK, some p,
            [Event.allocateNone size, Event.registerNodeOwnedMemory node p size]))
  ∧ (∀ e, node < numNodes → node = 0 → allocate size = .error e →
       nanos_cmalloc numNodes size node allocate allocate_none
         = (e, none, [Event.allocate size]))
  ∧ (∀ e, node < numNodes → node ≠ 0 → allocate_none size = .error e →
       nanos_cmalloc numNodes size node allocate allocate_none
         = (e, none, [Event.allocateNone size])) := by
  refine ⟨?_, ?_, ?_, ?_, ?_⟩
  · intro h
    simp [nanos_cmalloc, Nat.not_lt.mpr h]
  · intro p hlt h0 hok
    subst h0
    simp [nanos_cmalloc, hlt, hok]
  · intro p hlt h0 hok
    simp [nanos_cmalloc, hlt, h0, hok]
  · intro e hlt h0 herr
    subst h0
    simp [nanos_cmalloc, hlt, herr]
  · intro e hlt h0 herr
    simp [nanos_cmalloc, hlt, h0, herr]

/-- Claim C10, witness: instantiating `nanos_cmalloc_validates_node` at
concrete inputs — an out-of-range node, a successful node-0 allocation, and
a failed non-zero-node allocation. -/
theorem nanos_cmalloc_validates_node_witness :
    nanos_cmalloc 1 16 2 (fun _ => .ok 100) (fun _ => .ok 200)
      = (nanos_err_t.NANOS_INVALID_PARAM, none, [])
  ∧ nanos_cmalloc 2 16 0 (fun _ => .ok 100) (fun _ => .ok 200)
      = (nanos_err_t.NANOS_OK, some 100,
         [Event.allocate 16, Event.registerNodeOwnedMemory 0 100 16])
  ∧ nanos_cmalloc 2 16 1 (fun _ => .ok 100) (fun _ => .error (nanos_err_t.NANOS_ERR 3))
      = (nanos_err_t.NANOS_ERR 3, none, [Event.allocateNone 16]) :=
  ⟨(nanos_cmalloc_validates_node 1 16 2 (fun _ => .ok 100) (fun _ => .ok 200)).1
      (by decide),
   (nanos_cmalloc_validates_node 2 16 0 (fun _ => .ok 100) (fun _ => .ok 200)).2.1 100
      (by decide) rfl rfl,
   (nanos_cmalloc_validates_node 2 16 1 (fun _ => .ok 100)
      (fun _ => .error (nanos_err_t.NANOS_ERR 3))).2.2.2.2 (nanos_err_t.NANOS_ERR 3)
      (by decide) (by decide) rfl⟩
